import Mathlib

/-!
# The asynchronous database-query dispatcher of `db.cpp`

A shallow embedding of `src/db.cpp` (the submission queue, the per-caller
contexts, the worker thread and the escaping helper) together with the
properties of its specification that were checked against it.

Conventions of the embedding:

* a `char` is a `Nat` (its byte value); a `char*` argument is the list of bytes
  stored at the pointer, the end of the list reading as the terminating NUL;
* `size_t` values are `Nat`s reduced modulo `SIZE_MOD` where the code does
  arithmetic on them;
* pointers to contexts are `Nat` handles into a store of contexts;
* calls to `malloc`, `strdup`, `free` and `dbc_free` are recorded, in program
  order, in a trace (`World.trace`), so that what is released and what is not
  can be read off;
* what the environment decides (whether an allocation succeeds, what the SQL
  connection answers, what the clock reads) is an explicit argument.
-/

namespace OpenCore

/-! ## C strings -/

/-- Modulus of `size_t` arithmetic (64-bit target). -/
def SIZE_MOD : Nat := 2 ^ 64

/-- Largest size of a C object, `PTRDIFF_MAX`: a string with its terminator is an
object, so `strlen` of a string that exists in memory is below this value. -/
def PTRDIFF_MAX : Nat := 2 ^ 63 - 1

/-- The C string found at a `char*`: the bytes before the first NUL. -/
def cstr (s : List Nat) : List Nat := s.takeWhile (fun c => c != 0)

/-- Length of the C string, `strlen`. -/
def strlen (s : List Nat) : Nat := (cstr s).length

/-- What `strncpy(dst, src, n)` leaves in `dst[0..n)`: the first `n` bytes of the
C string at `src`, padded with NULs up to `n` bytes (no terminator is added when
the string has `n` bytes or more). -/
def strncpy (n : Nat) (src : List Nat) : List Nat :=
  (cstr src).take n ++ List.replicate (n - (cstr src).length) 0

/-- What `strlcpy(dst, src, n)` leaves in a zeroed `dst[0..n)`: at most `n - 1`
bytes of the C string at `src`, then NULs. -/
def strlcpy (n : Nat) (src : List Nat) : List Nat :=
  (cstr src).take (n - 1) ++ List.replicate (n - ((cstr src).take (n - 1)).length) 0

/-! ## `QueryEscape` -/

/-- The seven `case` labels of the `switch` in `QueryEscape`:
backslash, single quote, double quote, NUL, newline, carriage return, 0x1A. -/
def isSpecial (c : Nat) : Bool :=
  c == 92 || c == 39 || c == 34 || c == 0 || c == 10 || c == 13 || c == 26

/-- The loop `while (*str) { switch ... }` of `QueryEscape` followed by the final
`*result = 0`. The value is the list of bytes stored through `result`; every store
is `*result++ = ...` starting at `result[0]`, so the `k`-th element is the byte
stored at index `k`. -/
def escape_loop : List Nat → List Nat
  | [] => [0]
  | c :: rest =>
    if c = 0 then [0]
    else if isSpecial c then 92 :: c :: escape_loop rest
    else c :: escape_loop rest

/-- Outcome of one call of `QueryEscape`: the bytes stored at `result[0]`,
`result[1]`, ... and whether the diagnostic was logged. -/
structure EscapeOut where
  stores : List Nat
  logged : Bool
  deriving DecidableEq, Repr

/-- In C: `QueryEscape(result, result_sz, str)`. -/
def QueryEscape (result_sz : Nat) (str : List Nat) : EscapeOut :=
  if result_sz < (strlen str * 2 + 1) % SIZE_MOD then
    { stores := if result_sz > 0 then [0] else [], logged := true }
  else
    { stores := escape_loop str, logged := false }

/-- The destination buffer after the bytes `stores` were stored at its start. -/
def buffer_after (buf stores : List Nat) : List Nat :=
  stores ++ buf.drop stores.length

/-- The text the specification asks for: each special byte becomes backslash + that
byte, every other byte is kept. -/
def escaped_text : List Nat → List Nat
  | [] => []
  | c :: rest => (if isSpecial c then [92, c] else [c]) ++ escaped_text rest

/-- The literal parsing of the external SQL layer, as far as the specification
describes it: a backslash followed by one of the seven special bytes denotes that
byte; any other byte denotes itself. -/
def sql_unescape : List Nat → List Nat
  | [] => []
  | [c] => [c]
  | c :: d :: rest =>
    if c = 92 ∧ isSpecial d = true then d :: sql_unescape rest
    else c :: sql_unescape (d :: rest)

/-! ## Data model -/

/-- Modulus of `unsigned int` arithmetic. -/
def UINT_MOD : Nat := 2 ^ 32

/-- A result grid, `char ***rs`: rows of cells, a cell being a string or NULL. -/
abbrev ResultSet := List (List (Option (List Nat)))

/-- The record `struct db_result`. `rs` and `query` are pointers, `none` being NULL;
`name` is the array `char name[24]`, `libname` the array `char libname[64]`. -/
structure DB_RESULT where
  nrows : Nat
  ncols : Nat
  rs : Option ResultSet
  success : Bool
  user_data : Nat
  name : List Nat
  type : Int
  query : Option (List Nat)
  libname : List Nat
  deriving DecidableEq, Repr

/-- The record `struct db_context` (its mutex left out: the embedding runs one
critical section at a time). -/
structure DB_CONTEXT where
  running : Bool
  npending : Nat
  result_list_head : List DB_RESULT
  deriving DecidableEq, Repr

/-- The record `struct db_query`; `dbc` is the handle of the owning context. -/
structure DB_QUERY where
  query : Option (List Nat)
  user_data : Nat
  dbc : Nat
  name : List Nat
  libname : List Nat
  type : Int
  deriving DecidableEq, Repr

/-- The heap operations of `db.cpp` that the trace records. -/
inductive HeapEvent where
  /-- In C: `malloc(sizeof(DB_QUERY))` returned a block. -/
  | malloc_query
  /-- In C: `strdup(query)` returned a copy of the text. -/
  | strdup_text (text : List Nat)
  /-- In C: `free(dbq)`. -/
  | free_query
  /-- In C: `free(dbq->query)` or `free(dbr->query)`. -/
  | free_text (text : List Nat)
  /-- In C: `malloc(sizeof(DB_RESULT))` returned a block. -/
  | malloc_result
  /-- In C: `resultset_free(rs, nrows, ncols)`. -/
  | resultset_free (rs : ResultSet) (nrows ncols : Nat)
  /-- In C: `free(dbr)`. -/
  | free_result (dbr : DB_RESULT)
  /-- In C: `dbc_free(dbc)` on the context with handle `h`. -/
  | dbc_free (h : Nat)
  deriving DecidableEq, Repr

/-- The shared state: the enable flag `g_running`, the global submission queue
`query_list_head`, the memory of the contexts by handle (the content of a context
that was passed to `dbc_free` stays as it was), and the trace of heap operations. -/
structure World where
  g_running : Bool
  query_list_head : List DB_QUERY
  ctx : Nat → DB_CONTEXT
  trace : List HeapEvent

/-- Store `c` as the content of the context with handle `h`. -/
def World.set_ctx (w : World) (h : Nat) (c : DB_CONTEXT) : World :=
  { w with ctx := fun i => if i = h then c else w.ctx i }

/-- Append heap operations to the trace. -/
def World.log (w : World) (evs : List HeapEvent) : World :=
  { w with trace := w.trace ++ evs }

/-- In C: `x - 1` on a `size_t`. -/
def size_dec (x : Nat) : Nat := (x + SIZE_MOD - 1) % SIZE_MOD

/-- In C: `x + 1` on a `size_t`. -/
def size_inc (x : Nat) : Nat := (x + 1) % SIZE_MOD

/-- In C: `dbc_alloc()`: the fresh context, or NULL when `xmalloc` fails. -/
def dbc_alloc (xmalloc_ok : Bool) : Option DB_CONTEXT :=
  if xmalloc_ok then some { running := true, npending := 0, result_list_head := [] }
  else none

/-- In C: `db_instance_init()` when the allocation succeeds (the process exits
otherwise): the calling thread gets the fresh context, at handle `self`. -/
def db_instance_init (self : Nat) (w : World) : World :=
  match dbc_alloc true with
  | some c => w.set_ctx self c
  | none => w

/-- In C: `db_instance_shutdown()` called by the thread whose context has handle `self`. -/
def db_instance_shutdown (self : Nat) (w : World) : World :=
  w.set_ctx self { w.ctx self with running := false }

/-- In C: `db_shutdown()`, as far as the shared state goes: the enable flag is cleared
(the caller then signals the worker and joins it). -/
def db_shutdown (w : World) : World :=
  if w.g_running then { w with g_running := false } else w

/-! ## `Query` -/

/-- What the environment decides during one call of `Query`. -/
structure QueryEnv where
  /-- In C: `malloc(sizeof(DB_QUERY))` returns a block. -/
  dbq_ok : Bool
  /-- In C: `strdup(query)` returns a copy. -/
  strdup_ok : Bool
  /-- The content `libman_get_current_libname` leaves in `dbq->libname`. -/
  libname : List Nat

/-- In C: `Query(query_type, user_data, name, query)` called by the thread whose context
has handle `self` (the value of `dbc_get()`); `name` is `none` for a NULL pointer.
Returns `rv` and the new shared state. -/
def Query (env : QueryEnv) (self : Nat) (query_type : Int) (user_data : Nat)
    (name : Option (List Nat)) (query : List Nat) (w : World) : Int × World :=
  if w.g_running then
    if env.dbq_ok then
      let w1 := w.log [HeapEvent.malloc_query]
      if env.strdup_ok then
        let w2 := w1.log [HeapEvent.strdup_text (cstr query)]
        let dbq : DB_QUERY :=
          { query := some (cstr query), user_data := user_data, dbc := self,
            name := strncpy 24 (name.getD []), libname := env.libname, type := query_type }
        if (w2.ctx self).running then
          let w3 := w2.set_ctx self
            { w2.ctx self with npending := size_inc (w2.ctx self).npending }
          (0, { w3 with query_list_head := w3.query_list_head ++ [dbq] })
        else
          (-1, w2.log [HeapEvent.free_query])
      else
        (-1, w1.log [HeapEvent.free_query])
    else (-1, w)
  else (-1, w)

/-! ## The worker: executing one statement -/

/-- A row set as `mysql_store_result` hands it over, with what the allocator decides
while it is copied. -/
structure RowSet where
  /-- The rows `mysql_fetch_row` returns, a NULL field being `none`. -/
  data : List (List (Option (List Nat)))
  /-- In C: `mysql_num_fields(result)`. -/
  num_fields : Nat
  /-- In C: `calloc(nrows, sizeof(char**))` in `resultset_alloc` returns a block. -/
  calloc_rows_ok : Bool
  /-- In C: `calloc(ncols, sizeof(char*))` for row `r` returns a block. -/
  calloc_row_ok : Nat → Bool
  /-- In C: `strdup(row[i])` for the cell `i` of row `r` returns a copy. -/
  strdup_ok : Nat → Nat → Bool

/-- Outcome of one call of `mysql_store_result`: a row set, or NULL together with
the value of `mysql_errno`. -/
inductive StoreResult where
  | rows (set : RowSet)
  | null (mysql_errno : Nat)

/-- What the connection answers to one statement: the value of `mysql_real_query`,
the outcome of the first `mysql_store_result`, and the outcomes of those that follow
each `mysql_next_result(mysql) == 0`. -/
structure Exec where
  real_query_rv : Int
  first : StoreResult
  more : List StoreResult

/-- In C: `resultset_alloc(nrows, ncols)`: a grid of NULL cells, or NULL when an
allocation fails. -/
def resultset_alloc (calloc_rows_ok : Bool) (calloc_row_ok : Nat → Bool)
    (nrows ncols : Nat) : Option ResultSet :=
  if calloc_rows_ok then
    if (List.range nrows).all calloc_row_ok then
      some (List.replicate nrows (List.replicate ncols none))
    else none
  else none

/-- The assignment `rs[r][i] = v`. -/
def set_cell (rs : ResultSet) (r i : Nat) (v : Option (List Nat)) : ResultSet :=
  rs.set r ((rs.getD r []).set i v)

/-- The loop `for (i = 0; i < ncols; ++i) rs[current_row][i] = row[i] ? strdup(row[i]) : NULL`;
`strdup` copies the field up to its first NUL and gives NULL when it fails. -/
def copy_row (set : RowSet) (ncols current_row : Nat) (row : List (Option (List Nat)))
    (rs : ResultSet) : ResultSet :=
  (List.range ncols).foldl
    (fun acc i =>
      set_cell acc current_row i
        (match row.getD i none with
         | some s => if set.strdup_ok current_row i then some (cstr s) else none
         | none => none))
    rs

/-- The loop `while ((row = mysql_fetch_row(result)))`. -/
def fetch_rows (set : RowSet) (ncols : Nat) :
    List (List (Option (List Nat))) → Nat → ResultSet → ResultSet
  | [], _, rs => rs
  | row :: rows, current_row, rs =>
    fetch_rows set ncols rows (current_row + 1) (copy_row set ncols current_row row rs)

/-- The locals of the worker while it executes one statement. -/
structure ExecState where
  dbr : DB_RESULT
  nrows : Nat
  ncols : Nat
  stored_result : Bool
  /-- Number of times "Error allocating DB resultset" was logged. -/
  alloc_errors : Nat

/-- One pass through the body of the `do ... while (mysql_next_result(mysql) == 0)`
loop, `r` being what `mysql_store_result` returned. -/
def store_step (st : ExecState) (r : StoreResult) : ExecState :=
  match r with
  | StoreResult.rows set =>
    let nrows := set.data.length % UINT_MOD
    let ncols := set.num_fields % UINT_MOD
    let alloc := resultset_alloc set.calloc_rows_ok set.calloc_row_ok nrows ncols
    let rs := alloc.map (fetch_rows set ncols set.data 0)
    let errs := if alloc.isSome then st.alloc_errors else st.alloc_errors + 1
    if st.stored_result then
      { st with nrows := nrows, ncols := ncols, alloc_errors := errs }
    else
      { dbr := { st.dbr with nrows := nrows, ncols := ncols, rs := rs, success := true },
        nrows := nrows, ncols := ncols, stored_result := true, alloc_errors := errs }
  | StoreResult.null mysql_errno =>
    if mysql_errno = 0 then
      { st with dbr := { st.dbr with success := true, nrows := 0, ncols := 0 } }
    else st

/-- The statement execution: `mysql_real_query` and, when it returns 0, the
`do ... while` loop over the results. -/
def run_statement (x : Exec) (st : ExecState) : ExecState :=
  if x.real_query_rv = 0 then (x.first :: x.more).foldl store_step st else st

/-- The Result right after `memset` and the four copies from the query
(`libname`, `type`, `name`, `user_data`). -/
def init_result (dbq : DB_QUERY) : DB_RESULT :=
  { nrows := 0, ncols := 0, rs := none, success := false,
    user_data := dbq.user_data, name := strncpy 24 dbq.name, type := dbq.type,
    query := none, libname := strlcpy 64 dbq.libname }

/-- The Result the worker builds for `dbq` (lines 252-308), with the final values of
the locals `nrows` and `ncols`. -/
def build_result (x : Exec) (dbq : DB_QUERY) : ExecState :=
  let st := run_statement x
    { dbr := init_result dbq, nrows := 0, ncols := 0, stored_result := false,
      alloc_errors := 0 }
  { st with dbr := { st.dbr with query := dbq.query } }

/-! ## The worker: routing a Result -/

/-- The routing step (lines 310-328): hand `dbr` to the context `h = dbq->dbc`, or
release it. `nrows` and `ncols` are the worker's locals. -/
def route (h : Nat) (dbr : DB_RESULT) (nrows ncols : Nat) (w : World) : World :=
  if (w.ctx h).running then
    w.set_ctx h
      { w.ctx h with result_list_head := (w.ctx h).result_list_head ++ [dbr] }
  else
    let w1 :=
      if (w.ctx h).npending = 0 then
        w.log
          ((match dbr.rs with
            | some rs => [HeapEvent.resultset_free rs nrows ncols]
            | none => []) ++
           (match dbr.query with
            | some t => [HeapEvent.free_text t]
            | none => []) ++
           [HeapEvent.free_result dbr])
      else w
    w1.log [HeapEvent.dbc_free h]

/-- What the environment decides while the worker handles one query. -/
structure WorkEnv where
  /-- In C: `malloc(sizeof(DB_RESULT))` returns a block. -/
  dbr_ok : Bool
  /-- What the connection answers to the statement. -/
  exec : Exec

/-- The body of the drain loop for the query `dbq` just removed from the queue
(lines 246-333). -/
def process_query (env : WorkEnv) (dbq : DB_QUERY) (w : World) : World :=
  if env.dbr_ok then
    let st := build_result env.exec dbq
    let w1 := route dbq.dbc st.dbr st.nrows st.ncols (w.log [HeapEvent.malloc_result])
    w1.log [HeapEvent.free_query]
  else
    w.log
      ((match dbq.query with
        | some t => [HeapEvent.free_text t]
        | none => []) ++ [HeapEvent.free_query])

/-- The loop `while (1)` of the drain phase: `q` is the content of the global queue,
`k` counts the queries handled so far in this drain. Each pass removes the first
query, handles it, and goes on until the queue is empty. -/
def drain_loop (env : Nat → WorkEnv) : Nat → List DB_QUERY → World → World
  | _, [], w => { w with query_list_head := [] }
  | k, dbq :: rest, w =>
    drain_loop env (k + 1) rest (process_query (env k) dbq { w with query_list_head := rest })

/-- The drain phase of one worker iteration. -/
def drain (env : Nat → WorkEnv) (w : World) : World :=
  drain_loop env 0 w.query_list_head w

/-! ## The worker: one iteration of the loop -/

/-- Outcome of `mysql_real_connect`, as the code tells the cases apart. -/
inductive ConnectResult where
  /-- A handle was returned. -/
  | connected
  /-- NULL was returned with `CR_ALREADY_CONNECTED`. -/
  | already_connected
  /-- NULL was returned with another error. -/
  | failed
  deriving DecidableEq, Repr

/-- What the environment decides during one iteration of the worker loop. -/
structure IterEnv where
  /-- In C: `pthread_cond_timedwait` returned `ETIMEDOUT` (a wake by timeout); otherwise
  the wake is a signal. -/
  timed_out : Bool
  /-- In C: `get_ticks_ms() - last_connect_ticks >= reconnect_interval`. -/
  reconnect_due : Bool
  /-- What `mysql_real_connect` answers if it is called. -/
  connect : ConnectResult
  /-- The environment of the `k`-th query of the drain. -/
  work : Nat → WorkEnv

/-- The locals of `db_entrypoint` that live across iterations: whether `mysql` is a
connection (non-NULL), the loop variable `running`, and the number of keepalive
statements sent so far. -/
structure Worker where
  mysql : Bool
  running : Bool
  keepalives : Nat
  deriving DecidableEq, Repr

/-- One iteration of `while (running)` in `db_entrypoint` (lines 170-339). -/
def worker_iteration (env : IterEnv) (wk : Worker) (w : World) : Worker × World :=
  let keepalive := env.timed_out
  let mysql :=
    if env.reconnect_due then
      (match env.connect with
       | ConnectResult.connected => true
       | ConnectResult.already_connected => true
       | ConnectResult.failed => false)
    else wk.mysql
  if !mysql then
    -- `if (!mysql) continue;`
    ({ wk with mysql := mysql }, w)
  else if keepalive then
    -- the keepalive statement, then `continue;`
    ({ wk with mysql := mysql, keepalives := wk.keepalives + 1 }, w)
  else
    let w1 := if w.g_running && mysql then drain env.work w else w
    ({ wk with mysql := mysql, running := if !w1.g_running then false else wk.running }, w1)

/-! ## `db_instance_export_events` -/

/-- The fields of `CORE_DATA` that `db_instance_export_events` fills for the
callback. -/
structure CORE_DATA where
  query_success : Bool
  query_resultset : Option ResultSet
  query_user_data : Nat
  query_nrows : Nat
  query_ncols : Nat
  query_name : List Nat
  query_type : Int
  deriving DecidableEq, Repr

/-- What the environment decides during one call of `db_instance_export_events`. -/
structure ExportEnv where
  /-- The value of `get_ticks_ms() - base` at the `k`-th evaluation of the loop
  condition. -/
  elapsed : Nat → Nat
  /-- In C: `libman_find_lib(libname)` finds the module. -/
  find_lib : List Nat → Bool
  /-- In C: `sizeof(cd->query_name)`. -/
  name_sz : Nat

/-- The record handed to `libman_export_event` for the Result `dbr`. -/
def core_data (env : ExportEnv) (dbr : DB_RESULT) : CORE_DATA :=
  { query_success := dbr.success, query_resultset := dbr.rs,
    query_user_data := dbr.user_data, query_nrows := dbr.nrows,
    query_ncols := dbr.ncols, query_name := strncpy env.name_sz dbr.name,
    query_type := dbr.type }

/-- State of one call of `db_instance_export_events`: the caller's context, the
Results popped from the inbox so far, the records handed to the export callback so
far, and the heap operations done. -/
structure ExportState where
  dbc : DB_CONTEXT
  popped : List DB_RESULT
  exported : List CORE_DATA
  trace : List HeapEvent
  deriving DecidableEq, Repr

/-- One pass through the body of the loop of `db_instance_export_events` when the
inbox is `dbr :: rest`: `dbr` is removed from the inbox, the counter is decremented,
the record is handed to the callback if the module is found, the grid and the
Result are released. -/
def export_pop (env : ExportEnv) (dbr : DB_RESULT) (rest : List DB_RESULT)
    (st : ExportState) : ExportState :=
  { dbc := { st.dbc with npending := size_dec st.dbc.npending,
                         result_list_head := rest },
    popped := st.popped ++ [dbr],
    exported :=
      st.exported ++ (if env.find_lib dbr.libname then [core_data env dbr] else []),
    trace := st.trace ++
      ((match dbr.rs with
        | some rs => [HeapEvent.resultset_free rs dbr.nrows dbr.ncols]
        | none => []) ++ [HeapEvent.free_result dbr]) }

/-- The `do ... while (dbr && get_ticks_ms() - base <= max_time)` loop of
`db_instance_export_events`; `k` counts the evaluations of the loop condition and
`inbox` is the content of `dbc->result_list_head`. -/
def export_loop (env : ExportEnv) (max_time : Nat) :
    Nat → List DB_RESULT → ExportState → ExportState
  | _, [], st =>
    -- `dbr` is NULL: the counter is still decremented, then the loop ends
    { st with dbc := { st.dbc with npending := size_dec st.dbc.npending } }
  | k, dbr :: rest, st =>
    if env.elapsed k ≤ max_time then
      export_loop env max_time (k + 1) rest (export_pop env dbr rest st)
    else export_pop env dbr rest st

/-- In C: `db_instance_export_events(max_time)` called by the thread whose context is
`dbc`. -/
def db_instance_export_events (env : ExportEnv) (max_time : Nat) (dbc : DB_CONTEXT) :
    ExportState :=
  export_loop env max_time 0 dbc.result_list_head
    { dbc := dbc, popped := [], exported := [], trace := [] }

/-! ## Submitting a sequence of queries -/

/-- The arguments of one call of `Query`, with what the environment decides
during the call. -/
structure Request where
  env : QueryEnv
  query_type : Int
  user_data : Nat
  name : Option (List Nat)
  query : List Nat

/-- The calls `Query(...)` for the requests `reqs`, in order, all made by the thread
whose context has handle `self`: the returned values and the final shared state. -/
def submit_all (self : Nat) : List Request → World → List Int × World
  | [], w => ([], w)
  | r :: rs, w =>
    let res := Query r.env self r.query_type r.user_data r.name r.query w
    let tl := submit_all self rs res.2
    (res.1 :: tl.1, tl.2)

/-- The label, type tag and user data a Result carries. -/
def DB_RESULT.echo (r : DB_RESULT) : List Nat × Int × Nat := (r.name, r.type, r.user_data)

/-- The label (as `Query` stores it in the 24-byte field), type tag and user data
of a request. -/
def Request.echo (r : Request) : List Nat × Int × Nat :=
  (strncpy 24 (r.name.getD []), r.query_type, r.user_data)

/-- The pending query that an accepted call of `Query` for the request `r`, made
by the thread whose context has handle `self`, puts on the queue. -/
def Request.dbq (self : Nat) (r : Request) : DB_QUERY :=
  { query := some (cstr r.query), user_data := r.user_data, dbc := self,
    name := strncpy 24 (r.name.getD []), libname := r.env.libname, type := r.query_type }

/-- The queries of the queue `q`, each with the environment it is handled in when
the drain reaches it, `k` queries having been handled before. -/
def handled (env : Nat → WorkEnv) (k : Nat) (q : List DB_QUERY) : List (DB_QUERY × WorkEnv) :=
  q.zip ((List.range' k q.length).map env)

/-- The Results that a drain of the queue `q` builds for the queries of context `c`,
in the order of the queue: one for each query of `c` whose Result allocation
succeeds, `k` queries having been handled before. -/
def delivered (env : Nat → WorkEnv) (c k : Nat) (q : List DB_QUERY) : List DB_RESULT :=
  ((handled env k q).filter (fun p => decide (p.1.dbc = c) && p.2.dbr_ok)).map
    (fun p => (build_result p.2.exec p.1).dbr)

/-- The inbox of context `c` after the requests `reqs` were submitted by its thread
and the worker then drained the queue. -/
def inbox_after (c : Nat) (reqs : List Request) (env : Nat → WorkEnv) (w : World) :
    List DB_RESULT :=
  ((drain env (submit_all c reqs w).2).ctx c).result_list_head

/-! ## Concrete inputs used below -/

/-- An enabled dispatcher with an empty queue, every context fresh
(alive, nothing pending, empty inbox). -/
def ex_world : World :=
  { g_running := true, query_list_head := [],
    ctx := fun _ => { running := true, npending := 0, result_list_head := [] },
    trace := [] }

/-- The world `ex_world` after a thread with context 1 had `Query(9, 3, NULL, "U")`
accepted: the queue holds one query of context 1. -/
def ex_world_busy : World :=
  (Query { dbq_ok := true, strdup_ok := true, libname := [120] } 1 9 3 none [85] ex_world).2

/-- Both allocations of `Query` succeed; the calling module is "m". -/
def ex_qenv : QueryEnv := { dbq_ok := true, strdup_ok := true, libname := [109] }

/-- The pending query that `Query(5, 7, "n", "S")` builds for context 0. -/
def ex_dbq : DB_QUERY :=
  { query := some [83], user_data := 7, dbc := 0, name := strncpy 24 [110],
    libname := [109], type := 5 }

/-- A row set of one row and one column holding "1"; every allocation made while
it is copied succeeds. -/
def ex_rowset : RowSet :=
  { data := [[some [49]]], num_fields := 1, calloc_rows_ok := true,
    calloc_row_ok := fun _ => true, strdup_ok := fun _ _ => true }

/-- A statement answered by the single row set `ex_rowset`. -/
def ex_select : Exec :=
  { real_query_rv := 0, first := StoreResult.rows ex_rowset, more := [] }

/-- A stored-procedure call: the row set `ex_rowset`, then the row-less status
result (no error) that ends every `CALL`. -/
def ex_call : Exec :=
  { real_query_rv := 0, first := StoreResult.rows ex_rowset, more := [StoreResult.null 0] }

/-- A statement answered by the row set `ex_rowset`, the first `calloc` of
`resultset_alloc` failing. -/
def ex_select_nomem : Exec :=
  { real_query_rv := 0,
    first := StoreResult.rows { ex_rowset with calloc_rows_ok := false },
    more := [] }

/-- Every Result allocation succeeds and every statement is answered by
`ex_select`. -/
def ex_work : Nat → WorkEnv := fun _ => { dbr_ok := true, exec := ex_select }

/-- The Result allocation fails for every query. -/
def ex_work_nomem : Nat → WorkEnv := fun _ => { dbr_ok := false, exec := ex_select }

/-- The run "submit two queries under context 0, then end the scope with
`db_instance_shutdown`". -/
def ex_two_then_shutdown : World :=
  db_instance_shutdown 0
    (Query ex_qenv 0 5 7 (some [110]) [83]
      (Query ex_qenv 0 5 7 (some [110]) [83] ex_world).2).2

/-- A clock that never exceeds the budget, every module found, a 24-byte label
field in `CORE_DATA`. -/
def ex_export : ExportEnv :=
  { elapsed := fun _ => 0, find_lib := fun _ => true, name_sz := 24 }

/-- A Result with one row and one column, as the worker builds it for `ex_dbq`
answered by `ex_select`. -/
def ex_result : DB_RESULT := (build_result ex_select ex_dbq).dbr

/-- The module is not found by `libman_find_lib`; the clock never exceeds the
budget. -/
def ex_export_nolib : ExportEnv :=
  { elapsed := fun _ => 0, find_lib := fun _ => false, name_sz := 24 }

/-- Every module is found; at each evaluation of the loop condition 11 time units
have elapsed. -/
def ex_export_late : ExportEnv :=
  { elapsed := fun _ => 11, find_lib := fun _ => true, name_sz := 24 }

/-- The world `ex_world` with one Result waiting in the inbox of context 0. -/
def ex_world_backlog : World :=
  ex_world.set_ctx 0 { running := true, npending := 1, result_list_head := [ex_result] }

/-- The requests `Query(5, 7, "n", "S")` and `Query(6, 8, NULL, "T")`. -/
def ex_requests : List Request :=
  [{ env := ex_qenv, query_type := 5, user_data := 7, name := some [110], query := [83] },
   { env := ex_qenv, query_type := 6, user_data := 8, name := none, query := [84] }]

/-! ### Lemmas on `QueryEscape` -/

theorem cstr_no_nul (s : List Nat) : ∀ c ∈ cstr s, c ≠ 0 := by
  intro c hc
  have h := List.mem_takeWhile_imp hc
  simpa using h

theorem cstr_of_no_nul (s : List Nat) (h : ∀ c ∈ s, c ≠ 0) : cstr s = s := by
  unfold cstr
  rw [List.takeWhile_eq_self_iff]
  intro c hc
  simpa using h c hc

theorem cstr_idem (s : List Nat) : cstr (cstr s) = cstr s :=
  cstr_of_no_nul _ (cstr_no_nul s)

theorem escape_loop_eq (s : List Nat) : escape_loop s = escaped_text (cstr s) ++ [0] := by
  induction s with
  | nil => rfl
  | cons c rest ih =>
    by_cases hc : c = 0
    · subst hc
      simp [escape_loop, cstr, escaped_text]
    · by_cases hs : isSpecial c = true
      · simp [escape_loop, hc, hs, cstr, escaped_text] at ih ⊢
        exact ih
      · simp [escape_loop, hc, hs, cstr, escaped_text] at ih ⊢
        exact ih

theorem escaped_text_length_le (s : List Nat) : (escaped_text s).length ≤ 2 * s.length := by
  induction s with
  | nil => simp [escaped_text]
  | cons c rest ih =>
    simp only [escaped_text, List.length_append, List.length_cons]
    split <;> simp <;> omega

theorem escaped_text_no_nul (s : List Nat) (h : ∀ c ∈ s, c ≠ 0) :
    ∀ c ∈ escaped_text s, c ≠ 0 := by
  induction s with
  | nil => simp [escaped_text]
  | cons a rest ih =>
    intro c hc
    simp only [escaped_text, List.mem_append] at hc
    rcases hc with hc | hc
    · have ha : a ≠ 0 := h a (List.mem_cons_self _ _)
      split at hc
      · simp at hc
        rcases hc with hc | hc <;> omega
      · simp at hc
        omega
    · exact ih (fun x hx => h x (List.mem_cons_of_mem _ hx)) c hc

theorem sql_unescape_plain (c : Nat) (l : List Nat) (hc : c ≠ 92) :
    sql_unescape (c :: l) = c :: sql_unescape l := by
  cases l with
  | nil => simp [sql_unescape]
  | cons d rest => simp [sql_unescape, hc]

theorem sql_unescape_escaped (s : List Nat) : sql_unescape (escaped_text s) = s := by
  induction s with
  | nil => simp [escaped_text, sql_unescape]
  | cons c rest ih =>
    by_cases hs : isSpecial c = true
    · have : escaped_text (c :: rest) = 92 :: c :: escaped_text rest := by
        simp [escaped_text, hs]
      rw [this]
      simp [sql_unescape, hs, ih]
    · have h92 : c ≠ 92 := by
        intro h
        subst h
        exact hs (by decide)
      have : escaped_text (c :: rest) = c :: escaped_text rest := by
        simp [escaped_text, hs]
      rw [this, sql_unescape_plain _ _ h92, ih]

theorem cstr_append_nul (l rest : List Nat) (h : ∀ c ∈ l, c ≠ 0) :
    cstr (l ++ 0 :: rest) = l := by
  induction l with
  | nil => simp [cstr]
  | cons a t ih =>
    have ha : a ≠ 0 := h a (List.mem_cons_self _ _)
    have := ih (fun x hx => h x (List.mem_cons_of_mem _ hx))
    simp only [cstr] at this ⊢
    simp [List.takeWhile_cons, ha, this]

/-! ## The escaping helper (C9, C10) -/

theorem QueryEscape_of_fit (result_sz : Nat) (s : List Nat) (hsz : result_sz < SIZE_MOD)
    (hfit : 2 * strlen s + 1 ≤ result_sz) :
    QueryEscape result_sz s = { stores := escaped_text (cstr s) ++ [0], logged := false } := by
  have hmod : (strlen s * 2 + 1) % SIZE_MOD = strlen s * 2 + 1 :=
    Nat.mod_eq_of_lt (by omega)
  unfold QueryEscape
  rw [hmod, if_neg (by omega), escape_loop_eq]

theorem cstr_buffer_after (buf l : List Nat) (h : ∀ c ∈ l, c ≠ 0) :
    cstr (buffer_after buf (l ++ [0])) = l := by
  unfold buffer_after
  rw [List.append_assoc]
  exact cstr_append_nul l _ h

/-- C9 (fails on the code as stated): a string with an embedded NUL is not
reproduced. For the bytes `a NUL b` and a 7-byte buffer `QueryEscape` stops at the
NUL: it stores `a` and the terminator only, and unescaping the output gives `a`, not
the input. -/
theorem QueryEscape_nul_counterexample :
    2 * [97, 0, 98].length + 1 ≤ 7 ∧
    (QueryEscape 7 [97, 0, 98]).stores = [97, 0] ∧
    (QueryEscape 7 [97, 0, 98]).stores ≠ escaped_text [97, 0, 98] ++ [0] ∧
    sql_unescape (cstr (buffer_after (List.replicate 7 255) (QueryEscape 7 [97, 0, 98]).stores))
      ≠ [97, 0, 98] := by
  decide

/-- C9 (amended): for every input `s` and every destination buffer of at least
`2 * strlen(s) + 1` bytes, `QueryEscape` stores the C string of `s` (the bytes of
`s` before its first NUL) with each special byte written as backslash + that byte
and every other byte unchanged, then the terminator, all inside the buffer; reading
the buffer back and
unescaping it gives that C string; so for every `s` without a NUL byte the escaped
text of `s` itself is written and unescaping reproduces `s` exactly. -/
theorem QueryEscape_roundtrip (result_sz : Nat) (s buf : List Nat)
    (hsz : result_sz < SIZE_MOD) (hbuf : buf.length = result_sz)
    (hfit : 2 * strlen s + 1 ≤ result_sz) :
    (QueryEscape result_sz s).stores = escaped_text (cstr s) ++ [0] ∧
    (QueryEscape result_sz s).stores.length ≤ buf.length ∧
    sql_unescape (cstr (buffer_after buf (QueryEscape result_sz s).stores)) = cstr s ∧
    ((∀ c ∈ s, c ≠ 0) →
      (QueryEscape result_sz s).stores = escaped_text s ++ [0] ∧
      sql_unescape (cstr (buffer_after buf (QueryEscape result_sz s).stores)) = s) := by
  have hq := QueryEscape_of_fit result_sz s hsz hfit
  have hlen : (QueryEscape result_sz s).stores.length ≤ buf.length := by
    have h2 := escaped_text_length_le (cstr s)
    rw [hq, hbuf]
    simp only [List.length_append, List.length_singleton]
    unfold strlen at hfit
    omega
  have hrt : sql_unescape (cstr (buffer_after buf (QueryEscape result_sz s).stores)) = cstr s := by
    rw [hq]
    simp only
    rw [cstr_buffer_after buf _ (escaped_text_no_nul _ (cstr_no_nul s)), sql_unescape_escaped]
  refine ⟨by rw [hq], hlen, hrt, fun hn => ?_⟩
  have hc : cstr s = s := cstr_of_no_nul s hn
  rw [hc] at hrt
  exact ⟨by rw [hq, hc], hrt⟩

/-- Witness of `QueryEscape_roundtrip`: the six special bytes other than NUL
followed by `a`, escaped into a 15-byte buffer. -/
theorem QueryEscape_roundtrip_witness :
    (QueryEscape 15 [92, 39, 34, 10, 13, 26, 97]).stores =
      escaped_text (cstr [92, 39, 34, 10, 13, 26, 97]) ++ [0] ∧
    (QueryEscape 15 [92, 39, 34, 10, 13, 26, 97]).stores.length ≤ (List.replicate 15 255).length ∧
    sql_unescape (cstr (buffer_after (List.replicate 15 255)
      (QueryEscape 15 [92, 39, 34, 10, 13, 26, 97]).stores)) = cstr [92, 39, 34, 10, 13, 26, 97] ∧
    ((∀ c ∈ [92, 39, 34, 10, 13, 26, 97], c ≠ 0) →
      (QueryEscape 15 [92, 39, 34, 10, 13, 26, 97]).stores =
        escaped_text [92, 39, 34, 10, 13, 26, 97] ++ [0] ∧
      sql_unescape (cstr (buffer_after (List.replicate 15 255)
        (QueryEscape 15 [92, 39, 34, 10, 13, 26, 97]).stores)) = [92, 39, 34, 10, 13, 26, 97]) :=
  QueryEscape_roundtrip 15 [92, 39, 34, 10, 13, 26, 97] (List.replicate 15 255)
    (by decide) (by decide) (by decide)

/-- C10: for every input string `str` (one that fits in memory, so that
`2 * strlen(str) + 1` does not wrap) and every buffer of `result_sz` bytes:
if `result_sz < 2 * strlen(str) + 1`, `QueryEscape` fails (it logs the diagnostic),
stores at most the single byte NUL at index 0 (nothing at all when `result_sz` is 0),
so the buffer holds the empty string and is unchanged from index 1 on;
if `result_sz >= 2 * strlen(str) + 1`, it stores the escaped text and its terminator,
which take at most `result_sz` bytes: no store is at or beyond index `result_sz`. -/
theorem QueryEscape_stays_in_buffer (result_sz : Nat) (str buf : List Nat)
    (hbuf : buf.length = result_sz) (hstr : strlen str < PTRDIFF_MAX) :
    (result_sz < 2 * strlen str + 1 →
      (QueryEscape result_sz str).logged = true ∧
      (QueryEscape result_sz str).stores = (if result_sz > 0 then [0] else []) ∧
      (QueryEscape result_sz str).stores.length ≤ result_sz ∧
      cstr (buffer_after buf (QueryEscape result_sz str).stores) = [] ∧
      (buffer_after buf (QueryEscape result_sz str).stores).drop 1 = buf.drop 1) ∧
    (2 * strlen str + 1 ≤ result_sz →
      (QueryEscape result_sz str).logged = false ∧
      (QueryEscape result_sz str).stores = escaped_text (cstr str) ++ [0] ∧
      (QueryEscape result_sz str).stores.length ≤ result_sz ∧
      (buffer_after buf (QueryEscape result_sz str).stores).length = result_sz) := by
  have hmod : (strlen str * 2 + 1) % SIZE_MOD = strlen str * 2 + 1 := by
    apply Nat.mod_eq_of_lt
    simp only [PTRDIFF_MAX, SIZE_MOD] at hstr ⊢
    omega
  constructor
  · intro hlt
    have hq : QueryEscape result_sz str =
        { stores := if result_sz > 0 then [0] else [], logged := true } := by
      unfold QueryEscape
      rw [hmod, if_pos (by omega)]
    rw [hq]
    by_cases h0 : result_sz > 0
    · simp [h0, buffer_after, cstr]
      omega
    · have hz : result_sz = 0 := by omega
      subst hz
      have hnil : buf = [] := List.length_eq_zero.mp hbuf
      simp [hnil, buffer_after, cstr]
  · intro hfit
    have hq : QueryEscape result_sz str =
        { stores := escaped_text (cstr str) ++ [0], logged := false } := by
      unfold QueryEscape
      rw [hmod, if_neg (by omega), escape_loop_eq]
    have hlen := escaped_text_length_le (cstr str)
    have hlen2 : (escaped_text (cstr str) ++ [0]).length ≤ result_sz := by
      simp only [List.length_append, List.length_singleton]
      unfold strlen at hfit
      omega
    rw [hq]
    refine ⟨rfl, rfl, hlen2, ?_⟩
    simp only [buffer_after, List.length_append, List.length_drop] at hlen2 ⊢
    omega

/-- Witness of `QueryEscape_stays_in_buffer`: the string `a'b` with a 6-byte buffer
(too small) and with a 7-byte buffer (large enough). -/
theorem QueryEscape_stays_in_buffer_witness :
    ((QueryEscape 6 [97, 39, 98]).logged = true ∧
      (QueryEscape 6 [97, 39, 98]).stores = (if 6 > 0 then [0] else []) ∧
      (QueryEscape 6 [97, 39, 98]).stores.length ≤ 6 ∧
      cstr (buffer_after (List.replicate 6 255) (QueryEscape 6 [97, 39, 98]).stores) = [] ∧
      (buffer_after (List.replicate 6 255) (QueryEscape 6 [97, 39, 98]).stores).drop 1 =
        (List.replicate 6 255).drop 1) ∧
    ((QueryEscape 7 [97, 39, 98]).logged = false ∧
      (QueryEscape 7 [97, 39, 98]).stores = escaped_text (cstr [97, 39, 98]) ++ [0] ∧
      (QueryEscape 7 [97, 39, 98]).stores.length ≤ 7 ∧
      (buffer_after (List.replicate 7 255) (QueryEscape 7 [97, 39, 98]).stores).length = 7) :=
  ⟨(QueryEscape_stays_in_buffer 6 [97, 39, 98] (List.replicate 6 255)
      (by decide) (by decide)).1 (by decide),
   (QueryEscape_stays_in_buffer 7 [97, 39, 98] (List.replicate 7 255)
      (by decide) (by decide)).2 (by decide)⟩

/-! ## Routing a Result (C1, C2) -/

@[simp] theorem set_ctx_ctx (w : World) (h : Nat) (c : DB_CONTEXT) (i : Nat) :
    (w.set_ctx h c).ctx i = if i = h then c else w.ctx i := rfl

@[simp] theorem set_ctx_trace (w : World) (h : Nat) (c : DB_CONTEXT) :
    (w.set_ctx h c).trace = w.trace := rfl

@[simp] theorem set_ctx_queue (w : World) (h : Nat) (c : DB_CONTEXT) :
    (w.set_ctx h c).query_list_head = w.query_list_head := rfl

@[simp] theorem set_ctx_g_running (w : World) (h : Nat) (c : DB_CONTEXT) :
    (w.set_ctx h c).g_running = w.g_running := rfl

@[simp] theorem log_ctx (w : World) (evs : List HeapEvent) : (w.log evs).ctx = w.ctx := rfl

@[simp] theorem log_trace (w : World) (evs : List HeapEvent) :
    (w.log evs).trace = w.trace ++ evs := rfl

@[simp] theorem log_queue (w : World) (evs : List HeapEvent) :
    (w.log evs).query_list_head = w.query_list_head := rfl

@[simp] theorem log_g_running (w : World) (evs : List HeapEvent) :
    (w.log evs).g_running = w.g_running := rfl

theorem route_g_running (h : Nat) (dbr : DB_RESULT) (nrows ncols : Nat) (w : World) :
    (route h dbr nrows ncols w).g_running = w.g_running := by
  unfold route
  split
  · rfl
  · split <;> rfl

theorem route_queue (h : Nat) (dbr : DB_RESULT) (nrows ncols : Nat) (w : World) :
    (route h dbr nrows ncols w).query_list_head = w.query_list_head := by
  unfold route
  split
  · rfl
  · split <;> rfl

theorem process_query_g_running (env : WorkEnv) (dbq : DB_QUERY) (w : World) :
    (process_query env dbq w).g_running = w.g_running := by
  unfold process_query
  split
  · simp [route_g_running]
  · rfl

/-- Handling a query leaves the global queue as it is: the loop variable `q` of
`drain_loop` is the content of the queue at every pass. -/
theorem process_query_queue (env : WorkEnv) (dbq : DB_QUERY) (w : World) :
    (process_query env dbq w).query_list_head = w.query_list_head := by
  unfold process_query
  split
  · simp [route_queue]
  · rfl

theorem drain_loop_g_running (env : Nat → WorkEnv) (q : List DB_QUERY) :
    ∀ (k : Nat) (w : World), (drain_loop env k q w).g_running = w.g_running := by
  induction q with
  | nil => intro k w; rfl
  | cons dbq rest ih =>
    intro k w
    simp only [drain_loop]
    rw [ih, process_query_g_running]

/-- The drain phase ends with an empty queue. -/
theorem drain_loop_queue (env : Nat → WorkEnv) (q : List DB_QUERY) :
    ∀ (k : Nat) (w : World), (drain_loop env k q w).query_list_head = [] := by
  induction q with
  | nil => intro k w; rfl
  | cons dbq rest ih =>
    intro k w
    simp only [drain_loop]
    rw [ih]

/-- The routing step on a live context: the Result goes to the end of that
context's inbox and nothing is released. -/
theorem route_alive (h : Nat) (dbr : DB_RESULT) (nrows ncols : Nat) (w : World)
    (hr : (w.ctx h).running = true) :
    route h dbr nrows ncols w =
      w.set_ctx h { w.ctx h with result_list_head := (w.ctx h).result_list_head ++ [dbr] } := by
  simp [route, hr]

/-- The routing step on a dead context with queries still counted as pending: the
only thing done is `dbc_free` on the context. The Result is not released and not
delivered. -/
theorem route_dead_pending (h : Nat) (dbr : DB_RESULT) (nrows ncols : Nat) (w : World)
    (hr : (w.ctx h).running = false) (hp : (w.ctx h).npending ≠ 0) :
    route h dbr nrows ncols w = w.log [HeapEvent.dbc_free h] := by
  simp [route, hr, hp]

/-- The routing step calls `dbc_free` on the target context exactly when its
`running` flag is false, whatever its `npending` is. -/
theorem route_dbc_free_count (h : Nat) (dbr : DB_RESULT) (nrows ncols : Nat) (w : World) :
    (route h dbr nrows ncols w).trace.count (HeapEvent.dbc_free h) =
      w.trace.count (HeapEvent.dbc_free h) + (if (w.ctx h).running then 0 else 1) := by
  unfold route
  by_cases hr : (w.ctx h).running = true
  · simp [hr]
  · by_cases hp : (w.ctx h).npending = 0
    · cases hrs : dbr.rs <;> cases hq : dbr.query <;> simp [hr, hp, List.count_cons]
    · simp [hr, hp]

/-- C1 (fails on the code): in the run "submit 2 queries under context 0, end the
scope with `db_instance_shutdown`, let the worker resolve the 2 queries", the
context is dead with `npending = 2` when the worker starts; the resolution of the
first query already calls `dbc_free` on the context, while `npending` is still 2,
and the resolution of the second query calls `dbc_free` on it again: two calls in
all. -/
theorem context_freed_with_queries_pending :
    ex_two_then_shutdown.query_list_head = [ex_dbq, ex_dbq] ∧
    (ex_two_then_shutdown.ctx 0).running = false ∧
    (ex_two_then_shutdown.ctx 0).npending = 2 ∧
    (process_query (ex_work 0) ex_dbq ex_two_then_shutdown).trace.count
      (HeapEvent.dbc_free 0) = 1 ∧
    ((process_query (ex_work 0) ex_dbq ex_two_then_shutdown).ctx 0).npending = 2 ∧
    (drain ex_work ex_two_then_shutdown).trace.count (HeapEvent.dbc_free 0) = 2 := by
  decide

/-- C2 (fails on the code): a Result routed to context 0 while that context is dead
with `npending = 2` is neither released (no `free(dbr)` in the trace) nor appended
to an inbox (the contexts are unchanged), and the step calls `dbc_free` on the
context. -/
theorem dead_context_result_neither_freed_nor_delivered :
    (ex_two_then_shutdown.ctx 0).running = false ∧
    (ex_two_then_shutdown.ctx 0).npending = 2 ∧
    (route 0 ex_result 1 1 ex_two_then_shutdown).trace.count
      (HeapEvent.free_result ex_result) = 0 ∧
    (route 0 ex_result 1 1 ex_two_then_shutdown).ctx = ex_two_then_shutdown.ctx ∧
    (route 0 ex_result 1 1 ex_two_then_shutdown).trace =
      ex_two_then_shutdown.trace ++ [HeapEvent.dbc_free 0] :=
  ⟨by decide, by decide, by decide, rfl, by decide⟩

/-! ## Submission (C3) -/

/-- With both allocations succeeding, `Query` returns 0 exactly when the dispatcher
is enabled and the caller's context is alive; it returns -1 otherwise. -/
theorem Query_rv (env : QueryEnv) (self : Nat) (t : Int) (u : Nat) (name : Option (List Nat))
    (query : List Nat) (w : World) (h1 : env.dbq_ok = true) (h2 : env.strdup_ok = true) :
    (Query env self t u name query w).1 =
      if w.g_running = true ∧ (w.ctx self).running = true then 0 else -1 := by
  unfold Query
  by_cases hg : w.g_running = true <;> by_cases hr : (w.ctx self).running = true <;>
    simp [hg, hr, h1, h2]

/-- A call of `Query` that returns 0 went through every test: the dispatcher is
enabled, both allocations succeeded and the caller's context is alive. -/
theorem Query_accepted_inv (env : QueryEnv) (self : Nat) (t : Int) (u : Nat)
    (name : Option (List Nat)) (query : List Nat) (w : World)
    (h : (Query env self t u name query w).1 = 0) :
    w.g_running = true ∧ env.dbq_ok = true ∧ env.strdup_ok = true ∧
      (w.ctx self).running = true := by
  unfold Query at h
  by_cases hg : w.g_running = true <;> by_cases h1 : env.dbq_ok = true <;>
    by_cases h2 : env.strdup_ok = true <;> by_cases hr : (w.ctx self).running = true <;>
    simp [hg, hr, h1, h2] at h ⊢

/-- The shared state after an accepted call of `Query`: the pending counter of the
caller's context is incremented, the new query is the last element of the queue,
the earlier elements are unchanged. -/
theorem Query_accepted (env : QueryEnv) (self : Nat) (t : Int) (u : Nat)
    (name : Option (List Nat)) (query : List Nat) (w : World)
    (h : (Query env self t u name query w).1 = 0) :
    (Query env self t u name query w).2.query_list_head =
      w.query_list_head ++
        [{ query := some (cstr query), user_data := u, dbc := self,
           name := strncpy 24 (name.getD []), libname := env.libname, type := t }] ∧
    (Query env self t u name query w).2.ctx self =
      { w.ctx self with npending := size_inc (w.ctx self).npending } ∧
    (∀ i, i ≠ self → (Query env self t u name query w).2.ctx i = w.ctx i) ∧
    (Query env self t u name query w).2.g_running = w.g_running := by
  obtain ⟨hg, h1, h2, hr⟩ := Query_accepted_inv env self t u name query w h
  unfold Query
  simp only [hg, h1, h2, if_true, log_ctx, hr]
  refine ⟨rfl, by simp, fun i hi => by simp [hi], by simp [hg]⟩

/-- C3 (fails on the code): `Query(5, 7, "n", "S")` called with the dispatcher
enabled and both allocations succeeding, by a thread whose context is dead, returns
-1 and leaves the queue and the pending counter unchanged, but of the two blocks it
allocated (the `DB_QUERY` and the copy of the text) it releases only the
`DB_QUERY`: the copy of the text is never passed to `free`. -/
theorem Query_rejected_keeps_text_allocated :
    (db_instance_shutdown 0 ex_world).g_running = true ∧
    ((db_instance_shutdown 0 ex_world).ctx 0).running = false ∧
    (Query ex_qenv 0 5 7 (some [110]) [83] (db_instance_shutdown 0 ex_world)).1 = -1 ∧
    (Query ex_qenv 0 5 7 (some [110]) [83] (db_instance_shutdown 0 ex_world)).2.query_list_head
      = (db_instance_shutdown 0 ex_world).query_list_head ∧
    ((Query ex_qenv 0 5 7 (some [110]) [83] (db_instance_shutdown 0 ex_world)).2.ctx 0).npending
      = ((db_instance_shutdown 0 ex_world).ctx 0).npending ∧
    (Query ex_qenv 0 5 7 (some [110]) [83] (db_instance_shutdown 0 ex_world)).2.trace =
      [HeapEvent.malloc_query, HeapEvent.strdup_text [83], HeapEvent.free_query] ∧
    (Query ex_qenv 0 5 7 (some [110]) [83] (db_instance_shutdown 0 ex_world)).2.trace.count
      (HeapEvent.free_text [83]) = 0 := by
  decide

/-! ## Draining the inbox (C4) -/

/-- C4 (fails on the code): a call of `db_instance_export_events` on an empty inbox
pops nothing and hands nothing to the callback, yet it lowers `npending`: from 1
to 0, and from 0 to `SIZE_MAX` (the counter wraps below 0). With one Result in the
inbox and `npending = 1` it pops one Result and decrements twice, so the counter
wraps as well. -/
theorem export_events_decrements_without_result :
    (db_instance_export_events ex_export 10
      { running := true, npending := 1, result_list_head := [] }).popped = [] ∧
    (db_instance_export_events ex_export 10
      { running := true, npending := 1, result_list_head := [] }).exported = [] ∧
    (db_instance_export_events ex_export 10
      { running := true, npending := 1, result_list_head := [] }).dbc.npending = 0 ∧
    (db_instance_export_events ex_export 10
      { running := true, npending := 0, result_list_head := [] }).popped = [] ∧
    (db_instance_export_events ex_export 10
      { running := true, npending := 0, result_list_head := [] }).dbc.npending
        = 18446744073709551615 ∧
    (db_instance_export_events ex_export 10
      { running := true, npending := 1, result_list_head := [ex_result] }).popped
        = [ex_result] ∧
    (db_instance_export_events ex_export 10
      { running := true, npending := 1, result_list_head := [ex_result] }).dbc.npending
        = 18446744073709551615 := by
  decide

/-! ## Building a Result (C6, C7) -/

/-- C6 (fails on the code): for a stored-procedure call answered by a row set of
1 row and 1 column followed by the row-less status result, the Result keeps the
grid of the row set but its row count and column count are 0, not 1 and 1; the
same row set alone gives the counts 1 and 1. -/
theorem call_statement_counts_are_reset :
    ex_rowset.data.length = 1 ∧ ex_rowset.num_fields = 1 ∧
    (build_result ex_call ex_dbq).dbr.rs = some [[some [49]]] ∧
    (build_result ex_call ex_dbq).dbr.nrows = 0 ∧
    (build_result ex_call ex_dbq).dbr.ncols = 0 ∧
    (build_result ex_select ex_dbq).dbr.rs = some [[some [49]]] ∧
    (build_result ex_select ex_dbq).dbr.nrows = 1 ∧
    (build_result ex_select ex_dbq).dbr.ncols = 1 := by
  decide

/-- C7 (fails on the code): for a statement that returns a row set of 1 row whose
grid allocation fails, the allocation error is logged, but the Result has
`success = true` and a row count of 1, with no grid. -/
theorem grid_allocation_failure_reports_success :
    resultset_alloc false (fun _ => true) 1 1 = none ∧
    (build_result ex_select_nomem ex_dbq).alloc_errors = 1 ∧
    (build_result ex_select_nomem ex_dbq).dbr.rs = none ∧
    (build_result ex_select_nomem ex_dbq).dbr.success = true ∧
    (build_result ex_select_nomem ex_dbq).dbr.nrows = 1 ∧
    (build_result ex_select_nomem ex_dbq).dbr.ncols = 1 := by
  decide

/-! ## The worker loop (C8) -/

/-- The loop variable after one iteration: it is cleared only in an iteration
that has a connection, was woken by a signal and finds the dispatcher disabled. -/
theorem worker_iteration_running (env : IterEnv) (wk : Worker) (w : World) :
    (worker_iteration env wk w).1.running =
      if (worker_iteration env wk w).1.mysql = true ∧ env.timed_out = false ∧
          w.g_running = false
      then false else wk.running := by
  have hdr : (drain env.work w).g_running = w.g_running := drain_loop_g_running _ _ _ _
  unfold worker_iteration
  cases hd : env.reconnect_due <;> cases hc : env.connect <;> cases hm : wk.mysql <;>
    cases ht : env.timed_out <;> cases hg : w.g_running <;> simp [hdr, hg]

/-- C8 (fails on the code): with the dispatcher disabled, an iteration woken by a
signal without a connection, an iteration woken by a timeout without a connection
and an iteration woken by a timeout with a connection all end with the loop
variable `running` still true (they leave through `continue` before the shutdown
check); only the iteration woken by a signal with a connection clears it. -/
theorem worker_iteration_skips_shutdown_check :
    (db_shutdown ex_world).g_running = false ∧
    (worker_iteration
      { timed_out := false, reconnect_due := true, connect := ConnectResult.failed,
        work := ex_work }
      { mysql := false, running := true, keepalives := 0 } (db_shutdown ex_world)).1.running
        = true ∧
    (worker_iteration
      { timed_out := true, reconnect_due := true, connect := ConnectResult.failed,
        work := ex_work }
      { mysql := false, running := true, keepalives := 0 } (db_shutdown ex_world)).1.running
        = true ∧
    (worker_iteration
      { timed_out := true, reconnect_due := false, connect := ConnectResult.connected,
        work := ex_work }
      { mysql := true, running := true, keepalives := 0 } (db_shutdown ex_world)).1.running
        = true ∧
    (worker_iteration
      { timed_out := false, reconnect_due := false, connect := ConnectResult.connected,
        work := ex_work }
      { mysql := true, running := true, keepalives := 0 } (db_shutdown ex_world)).1.running
        = false := by
  decide

/-! ## Delivery order (C5) -/

theorem strncpy_idem (n : Nat) (s : List Nat) : strncpy n (strncpy n s) = strncpy n s := by
  have hnn : ∀ c ∈ (cstr s).take n, c ≠ 0 := fun c hc => cstr_no_nul s c (List.mem_of_mem_take hc)
  have hc : cstr (strncpy n s) = (cstr s).take n := by
    unfold strncpy
    cases hk : n - (cstr s).length with
    | zero =>
      simp only [List.replicate_zero, List.append_nil]
      exact cstr_of_no_nul _ hnn
    | succ k =>
      rw [List.replicate_succ]
      exact cstr_append_nul _ _ hnn
  unfold strncpy at hc ⊢
  rw [hc]
  simp only [List.take_take, min_self, List.length_take]
  congr 1
  congr 1
  omega

theorem store_step_echo (st : ExecState) (r : StoreResult) :
    (store_step st r).dbr.echo = st.dbr.echo := by
  cases r with
  | rows set =>
    simp only [store_step]
    split <;> rfl
  | null e =>
    simp only [store_step]
    split <;> rfl

theorem foldl_store_step_echo (rs : List StoreResult) :
    ∀ st : ExecState, (rs.foldl store_step st).dbr.echo = st.dbr.echo := by
  induction rs with
  | nil => intro st; rfl
  | cons r rest ih =>
    intro st
    simp only [List.foldl_cons]
    rw [ih, store_step_echo]

/-- The Result built for a query carries the label, type tag and user data of the
query, whatever the connection answers. -/
theorem build_result_echo (x : Exec) (dbq : DB_QUERY) :
    (build_result x dbq).dbr.echo = (strncpy 24 dbq.name, dbq.type, dbq.user_data) := by
  have h : ∀ st : ExecState, (run_statement x st).dbr.echo = st.dbr.echo := by
    intro st
    unfold run_statement
    split
    · exact foldl_store_step_echo _ st
    · rfl
  have h2 := h { dbr := init_result dbq, nrows := 0, ncols := 0, stored_result := false,
                 alloc_errors := 0 }
  simp only [DB_RESULT.echo, init_result] at h2 ⊢
  simp only [build_result, init_result]
  exact h2

theorem Request_dbq_echo (self : Nat) (r : Request) (x : Exec) :
    (build_result x (r.dbq self)).dbr.echo = r.echo := by
  rw [build_result_echo]
  simp [Request.dbq, Request.echo, strncpy_idem]

theorem route_ctx_other (h c : Nat) (dbr : DB_RESULT) (nrows ncols : Nat) (w : World)
    (hc : c ≠ h) : (route h dbr nrows ncols w).ctx c = w.ctx c := by
  unfold route
  split
  · simp [hc]
  · split <;> rfl

/-- Handling one query, seen from a live context `c`: the inbox of `c` gets the
Result at its end when the query belongs to `c` and the Result was allocated, and
the context is unchanged otherwise. -/
theorem process_query_ctx (env : WorkEnv) (dbq : DB_QUERY) (w : World) (c : Nat)
    (hal : (w.ctx c).running = true) :
    (process_query env dbq w).ctx c =
      { w.ctx c with
        result_list_head := (w.ctx c).result_list_head ++
          (if dbq.dbc = c ∧ env.dbr_ok = true then [(build_result env.exec dbq).dbr] else []) } := by
  unfold process_query
  by_cases hok : env.dbr_ok = true
  · by_cases hc : dbq.dbc = c
    · subst hc
      have hal2 : ((w.log [HeapEvent.malloc_result]).ctx dbq.dbc).running = true := hal
      simp only [hok, if_true, log_ctx, and_self]
      rw [route_alive _ _ _ _ _ hal2]
      simp
    · have hc2 : c ≠ dbq.dbc := fun h => hc h.symm
      simp only [hok, if_true, log_ctx, hc, false_and, if_false, List.append_nil]
      rw [route_ctx_other _ _ _ _ _ _ hc2]
      rfl
  · simp [hok]

/-- The drain phase, seen from a live context `c`: its inbox gets, at its end and in
the order of the queue, the Results of the queries of `c` whose Result was
allocated; the context stays alive and its pending counter is unchanged. -/
theorem drain_loop_ctx (env : Nat → WorkEnv) (c : Nat) (q : List DB_QUERY) :
    ∀ (k : Nat) (w : World), (w.ctx c).running = true →
      (drain_loop env k q w).ctx c =
        { w.ctx c with
          result_list_head := (w.ctx c).result_list_head ++
            ((handled env k q).filter (fun p => decide (p.1.dbc = c) && p.2.dbr_ok)).map
              (fun p => (build_result p.2.exec p.1).dbr) } := by
  induction q with
  | nil =>
    intro k w _
    simp [drain_loop, handled]
  | cons dbq rest ih =>
    intro k w hal
    have hstep := process_query_ctx (env k) dbq { w with query_list_head := rest } c hal
    have hal2 : ((process_query (env k) dbq { w with query_list_head := rest }).ctx c).running
        = true := by
      rw [hstep]
      exact hal
    have hh : handled env k (dbq :: rest) = (dbq, env k) :: handled env (k + 1) rest := by
      simp [handled, List.range'_succ]
    simp only [drain_loop]
    rw [ih (k + 1) _ hal2, hstep, hh]
    by_cases hc : dbq.dbc = c ∧ (env k).dbr_ok = true
    · have hd : (decide (dbq.dbc = c) && (env k).dbr_ok) = true := by simp [hc.1, hc.2]
      simp [List.filter_cons, hd, hc]
    · have hd : (decide (dbq.dbc = c) && (env k).dbr_ok) = false := by
        by_cases h1 : dbq.dbc = c
        · have : (env k).dbr_ok = false := by
            cases hb : (env k).dbr_ok
            · rfl
            · exact absurd ⟨h1, hb⟩ hc
          simp [this]
        · simp [h1]
      simp [List.filter_cons, hd, hc]

/-- A sequence of calls of `Query` that were all accepted puts the queries at the
end of the queue in the order of the calls, and leaves the enable flag, the
liveness flags and the inboxes as they were. -/
theorem submit_all_accepted (self : Nat) (reqs : List Request) :
    ∀ w : World, (∀ rv ∈ (submit_all self reqs w).1, rv = 0) →
      (submit_all self reqs w).2.query_list_head =
        w.query_list_head ++ reqs.map (Request.dbq self) ∧
      (∀ i, ((submit_all self reqs w).2.ctx i).running = (w.ctx i).running) ∧
      (∀ i, ((submit_all self reqs w).2.ctx i).result_list_head
        = (w.ctx i).result_list_head) := by
  induction reqs with
  | nil =>
    intro w _
    simp [submit_all]
  | cons r rest ih =>
    intro w hacc
    simp only [submit_all, List.mem_cons, forall_eq_or_imp] at hacc
    obtain ⟨h0, hrest⟩ := hacc
    obtain ⟨hq, hself, hother, _⟩ :=
      Query_accepted r.env self r.query_type r.user_data r.name r.query w h0
    obtain ⟨ihq, ihr, ihi⟩ := ih _ hrest
    simp only [submit_all]
    refine ⟨?_, ?_, ?_⟩
    · rw [ihq, hq]
      simp [Request.dbq]
    · intro i
      rw [ihr]
      by_cases hi : i = self
      · subst hi
        rw [hself]
      · rw [hother i hi]
    · intro i
      rw [ihi]
      by_cases hi : i = self
      · subst hi
        rw [hself]
      · rw [hother i hi]

/-- One call of `db_instance_export_events` pops a first part of the inbox and
hands the popped Results whose module is found to the callback, in the order of the
inbox; when the clock never exceeds the budget it pops the whole inbox. -/
theorem export_loop_order (env : ExportEnv) (max_time : Nat) (inbox : List DB_RESULT) :
    ∀ (k : Nat) (st : ExportState),
      ∃ m, m ≤ inbox.length ∧
        (export_loop env max_time k inbox st).popped = st.popped ++ inbox.take m ∧
        (export_loop env max_time k inbox st).exported =
          st.exported ++
            ((inbox.take m).filter (fun r => env.find_lib r.libname)).map (core_data env) ∧
        ((∀ j, env.elapsed j ≤ max_time) → m = inbox.length) := by
  induction inbox with
  | nil =>
    intro k st
    have h : export_loop env max_time k [] st =
        { st with dbc := { st.dbc with npending := size_dec st.dbc.npending } } := rfl
    refine ⟨0, Nat.le_refl _, ?_, ?_, fun _ => rfl⟩
    · rw [h]
      simp only [List.take_nil, List.append_nil]
    · rw [h]
      simp only [List.take_nil, List.filter_nil, List.map_nil, List.append_nil]
  | cons dbr rest ih =>
    intro k st
    have hpop : (export_pop env dbr rest st).popped = st.popped ++ [dbr] := rfl
    have hexp : (export_pop env dbr rest st).exported =
        st.exported ++ (if env.find_lib dbr.libname then [core_data env dbr] else []) := rfl
    by_cases ht : env.elapsed k ≤ max_time
    · obtain ⟨m, hm, hp, he, hall⟩ := ih (k + 1) (export_pop env dbr rest st)
      have hloop : export_loop env max_time k (dbr :: rest) st =
          export_loop env max_time (k + 1) rest (export_pop env dbr rest st) := by
        simp only [export_loop, ht, if_true]
      refine ⟨m + 1, ?_, ?_, ?_, ?_⟩
      · simp only [List.length_cons]
        omega
      · rw [hloop, hp, hpop]
        simp
      · rw [hloop, he, hexp]
        by_cases hf : env.find_lib dbr.libname = true
        · simp [List.filter_cons, hf]
        · simp [List.filter_cons, hf]
      · intro h
        rw [hall h]
        rfl
    · have hloop : export_loop env max_time k (dbr :: rest) st = export_pop env dbr rest st := by
        simp only [export_loop, ht, if_false]
      refine ⟨1, ?_, ?_, ?_, fun h => absurd (h k) ht⟩
      · simp
      · rw [hloop, hpop]
        simp
      · rw [hloop, hexp]
        by_cases hf : env.find_lib dbr.libname = true
        · simp [List.filter_cons, hf]
        · simp [List.filter_cons, hf]

theorem handled_cons (env : Nat → WorkEnv) (k : Nat) (dbq : DB_QUERY) (q : List DB_QUERY) :
    handled env k (dbq :: q) = (dbq, env k) :: handled env (k + 1) q := by
  simp [handled, List.range'_succ]

theorem handled_append (env : Nat → WorkEnv) (q1 q2 : List DB_QUERY) :
    ∀ k, handled env k (q1 ++ q2) = handled env k q1 ++ handled env (k + q1.length) q2 := by
  induction q1 with
  | nil => intro k; simp [handled]
  | cons a t ih =>
    intro k
    rw [List.cons_append, handled_cons, handled_cons, ih (k + 1)]
    simp only [List.cons_append, List.length_cons]
    congr 3
    omega

/-- The queries of other contexts contribute nothing to the inbox of `c`. -/
theorem handled_filter_other (env : Nat → WorkEnv) (c : Nat) (q : List DB_QUERY)
    (hq : ∀ x ∈ q, x.dbc ≠ c) :
    ∀ k, (handled env k q).filter (fun p => decide (p.1.dbc = c) && p.2.dbr_ok) = [] := by
  induction q with
  | nil => intro k; simp [handled]
  | cons a t ih =>
    intro k
    have ha : a.dbc ≠ c := hq a (List.mem_cons_self _ _)
    rw [handled_cons, List.filter_cons]
    simp only [ha, decide_False, Bool.false_and, Bool.false_eq_true, if_false]
    exact ih (fun x hx => hq x (List.mem_cons_of_mem _ hx)) (k + 1)

/-- The Results delivered for the queries of `c`, read through their label, type tag
and user data, are those of the requests whose Result was allocated, in order. -/
theorem handled_requests_echo (env : Nat → WorkEnv) (c : Nat) (reqs : List Request) :
    ∀ k,
      (((handled env k (reqs.map (Request.dbq c))).filter
          (fun p => decide (p.1.dbc = c) && p.2.dbr_ok)).map
          (fun p => (build_result p.2.exec p.1).dbr)).map DB_RESULT.echo =
        ((reqs.zip ((List.range' k reqs.length).map env)).filter
          (fun p => p.2.dbr_ok)).map (fun p => p.1.echo) := by
  induction reqs with
  | nil => intro k; simp [handled]
  | cons r rest ih =>
    intro k
    have hc : (r.dbq c).dbc = c := rfl
    rw [List.map_cons, handled_cons, List.length_cons, List.range'_succ, List.map_cons,
      List.zip_cons_cons, List.filter_cons, List.filter_cons]
    simp only [hc, decide_True, Bool.true_and]
    cases hok : (env k).dbr_ok
    · simpa using ih (k + 1)
    · simp only [if_true, List.map_cons, Request_dbq_echo]
      congr 1
      simpa using ih (k + 1)

theorem zip_all_ok_echo (env : Nat → WorkEnv) (hok : ∀ k, (env k).dbr_ok = true)
    (reqs : List Request) :
    ∀ k, ((reqs.zip ((List.range' k reqs.length).map env)).filter
          (fun p => p.2.dbr_ok)).map (fun p => p.1.echo) = reqs.map Request.echo := by
  induction reqs with
  | nil => intro k; simp
  | cons r rest ih =>
    intro k
    rw [List.length_cons, List.range'_succ, List.map_cons, List.zip_cons_cons, List.filter_cons]
    simp only [hok k, if_true, List.map_cons]
    congr 1
    simpa using ih (k + 1)

/-- C5 (fails on the code as stated), at four inputs, two queries being accepted by
`Query` from context 0, which stays alive, and the worker then draining the queue to
empty in each of them.
(a) The allocation of each Result fails (`malloc` returns NULL): each query is
dropped and the inbox holds no Result, not one per accepted query.
(b) Every allocation succeeds and the inbox holds the two Results, but the module
is not found by `libman_find_lib`: `db_instance_export_events` pops both Results and
hands none to the export callback.
(c) Every allocation succeeds, but the time budget of 10 is exceeded at the first
test of the loop: `db_instance_export_events` pops and hands over one Result only,
the other stays in the inbox.
(d) The inbox of context 0 already holds one Result: after the drain it holds
three Results for two accepted queries. -/
theorem one_result_per_query_counterexample :
    ((∀ rv ∈ (submit_all 0 ex_requests ex_world).1, rv = 0) ∧
      (submit_all 0 ex_requests ex_world).2.query_list_head.length = 2 ∧
      (drain ex_work_nomem (submit_all 0 ex_requests ex_world).2).query_list_head = [] ∧
      ((drain ex_work_nomem (submit_all 0 ex_requests ex_world).2).ctx 0).running = true ∧
      inbox_after 0 ex_requests ex_work_nomem ex_world = []) ∧
    ((drain ex_work (submit_all 0 ex_requests ex_world).2).query_list_head = [] ∧
      (inbox_after 0 ex_requests ex_work ex_world).length = 2 ∧
      (db_instance_export_events ex_export_nolib 10
        ((drain ex_work (submit_all 0 ex_requests ex_world).2).ctx 0)).popped.length = 2 ∧
      (db_instance_export_events ex_export_nolib 10
        ((drain ex_work (submit_all 0 ex_requests ex_world).2).ctx 0)).exported = []) ∧
    ((db_instance_export_events ex_export_late 10
        ((drain ex_work (submit_all 0 ex_requests ex_world).2).ctx 0)).popped.length = 1 ∧
      (db_instance_export_events ex_export_late 10
        ((drain ex_work (submit_all 0 ex_requests ex_world).2).ctx 0)).exported.length = 1 ∧
      (db_instance_export_events ex_export_late 10
        ((drain ex_work (submit_all 0 ex_requests ex_world).2).ctx 0)).dbc.result_list_head.length
          = 1) ∧
    ((∀ rv ∈ (submit_all 0 ex_requests ex_world_backlog).1, rv = 0) ∧
      (ex_world_backlog.ctx 0).result_list_head.length = 1 ∧
      (inbox_after 0 ex_requests ex_work ex_world_backlog).length = 3) := by
  decide

theorem delivered_append (env : Nat → WorkEnv) (c k : Nat) (q1 q2 : List DB_QUERY) :
    delivered env c k (q1 ++ q2) = delivered env c k q1 ++ delivered env c (k + q1.length) q2 := by
  unfold delivered
  rw [handled_append, List.filter_append, List.map_append]

/-- C5 (amended): for every sequence of queries accepted by `Query` from one
context `c` that is alive, once the worker has drained the queue, the queue is
empty and the inbox of `c` holds, after the Results it held before and the Results
of the queries of `c` that were already in the queue (no such Result when the queue
held only queries of other contexts), in submission order, exactly one Result for
each accepted query whose Result allocation succeeded (a query whose Result
allocation fails is dropped), each Result carrying its query's label, type and user
data; so when every Result allocation succeeds this is exactly one Result per
accepted query, in submission order. A call of `db_instance_export_events` then
pops the first `m` Results of the inbox, for some `m`, and hands those whose module
is found to the callback in that same order; it pops the whole inbox when the time
budget is never exceeded. -/
theorem inbox_in_submission_order (c : Nat) (w : World) (reqs : List Request)
    (env : Nat → WorkEnv)
    (hal : (w.ctx c).running = true)
    (hacc : ∀ rv ∈ (submit_all c reqs w).1, rv = 0) :
    (drain env (submit_all c reqs w).2).query_list_head = [] ∧
    inbox_after c reqs env w =
      (w.ctx c).result_list_head ++ delivered env c 0 w.query_list_head ++
        delivered env c w.query_list_head.length (reqs.map (Request.dbq c)) ∧
    ((∀ q ∈ w.query_list_head, q.dbc ≠ c) → delivered env c 0 w.query_list_head = []) ∧
    (delivered env c w.query_list_head.length (reqs.map (Request.dbq c))).map DB_RESULT.echo =
      ((reqs.zip ((List.range' w.query_list_head.length reqs.length).map env)).filter
        (fun p => p.2.dbr_ok)).map (fun p => p.1.echo) ∧
    ((∀ k, (env k).dbr_ok = true) →
      (delivered env c w.query_list_head.length (reqs.map (Request.dbq c))).map
        DB_RESULT.echo = reqs.map Request.echo) ∧
    (∀ (xenv : ExportEnv) (max_time : Nat),
      ∃ m, m ≤ (inbox_after c reqs env w).length ∧
        (db_instance_export_events xenv max_time
          ((drain env (submit_all c reqs w).2).ctx c)).popped
            = (inbox_after c reqs env w).take m ∧
        (db_instance_export_events xenv max_time
          ((drain env (submit_all c reqs w).2).ctx c)).exported
            = (((inbox_after c reqs env w).take m).filter
                (fun r => xenv.find_lib r.libname)).map (core_data xenv) ∧
        ((∀ j, xenv.elapsed j ≤ max_time) → m = (inbox_after c reqs env w).length)) := by
  obtain ⟨hq1, hr1, hi1⟩ := submit_all_accepted c reqs w hacc
  have hal1 : (((submit_all c reqs w).2).ctx c).running = true := by rw [hr1]; exact hal
  have hctx := drain_loop_ctx env c (submit_all c reqs w).2.query_list_head 0
    (submit_all c reqs w).2 hal1
  have hinbox : inbox_after c reqs env w =
      (w.ctx c).result_list_head ++ delivered env c 0 w.query_list_head ++
        delivered env c w.query_list_head.length (reqs.map (Request.dbq c)) := by
    have hd := delivered_append env c 0 w.query_list_head (reqs.map (Request.dbq c))
    unfold delivered at hd ⊢
    unfold inbox_after drain
    rw [hctx, hq1, hd]
    simp only [hi1, Nat.zero_add, List.append_assoc]
  have hecho := handled_requests_echo env c reqs w.query_list_head.length
  refine ⟨drain_loop_queue _ _ _ _, hinbox, ?_, hecho, ?_, ?_⟩
  · intro hq
    unfold delivered
    rw [handled_filter_other env c _ hq 0]
    rfl
  · intro hok
    unfold delivered
    rw [hecho]
    exact zip_all_ok_echo env hok reqs _
  · intro xenv max_time
    obtain ⟨m, hm, hp, he, hall⟩ := export_loop_order xenv max_time
      ((drain env (submit_all c reqs w).2).ctx c).result_list_head 0
      { dbc := (drain env (submit_all c reqs w).2).ctx c, popped := [], exported := [],
        trace := [] }
    refine ⟨m, hm, ?_, ?_, hall⟩
    · unfold db_instance_export_events
      rw [hp]
      rfl
    · unfold db_instance_export_events
      rw [he]
      rfl

/-- Witness of `inbox_in_submission_order`: the two requests of `ex_requests`
submitted from context 0 while the queue already holds a query of context 1, every
Result allocation succeeding; the drain that follows has budget left for the whole
inbox. -/
theorem inbox_in_submission_order_witness :
    (ex_world_busy.ctx 0).running = true ∧
    (∀ rv ∈ (submit_all 0 ex_requests ex_world_busy).1, rv = 0) ∧
    (drain ex_work (submit_all 0 ex_requests ex_world_busy).2).query_list_head = [] ∧
    inbox_after 0 ex_requests ex_work ex_world_busy =
      (ex_world_busy.ctx 0).result_list_head ++
        delivered ex_work 0 0 ex_world_busy.query_list_head ++
        delivered ex_work 0 ex_world_busy.query_list_head.length
          (ex_requests.map (Request.dbq 0)) ∧
    delivered ex_work 0 0 ex_world_busy.query_list_head = [] ∧
    (delivered ex_work 0 ex_world_busy.query_list_head.length
      (ex_requests.map (Request.dbq 0))).map DB_RESULT.echo = ex_requests.map Request.echo ∧
    (∃ m, m ≤ (inbox_after 0 ex_requests ex_work ex_world_busy).length ∧
        (db_instance_export_events ex_export 10
          ((drain ex_work (submit_all 0 ex_requests ex_world_busy).2).ctx 0)).popped
            = (inbox_after 0 ex_requests ex_work ex_world_busy).take m ∧
        (db_instance_export_events ex_export 10
          ((drain ex_work (submit_all 0 ex_requests ex_world_busy).2).ctx 0)).exported
            = (((inbox_after 0 ex_requests ex_work ex_world_busy).take m).filter
                (fun r => ex_export.find_lib r.libname)).map (core_data ex_export) ∧
        ((∀ j, ex_export.elapsed j ≤ 10) →
          m = (inbox_after 0 ex_requests ex_work ex_world_busy).length)) :=
  ⟨by decide, by decide,
   (inbox_in_submission_order 0 ex_world_busy ex_requests ex_work
      (by decide) (by decide)).1,
   (inbox_in_submission_order 0 ex_world_busy ex_requests ex_work
      (by decide) (by decide)).2.1,
   (inbox_in_submission_order 0 ex_world_busy ex_requests ex_work
      (by decide) (by decide)).2.2.1 (by decide),
   (inbox_in_submission_order 0 ex_world_busy ex_requests ex_work
      (by decide) (by decide)).2.2.2.2.1 (fun _ => rfl),
   (inbox_in_submission_order 0 ex_world_busy ex_requests ex_work
      (by decide) (by decide)).2.2.2.2.2 ex_export 10⟩

/-! ## Supplements: the general form of the failures of C1 and C4 -/

theorem route_ctx_dead (h c : Nat) (dbr : DB_RESULT) (nrows ncols : Nat) (w : World)
    (hd : (w.ctx c).running = false) : (route h dbr nrows ncols w).ctx c = w.ctx c := by
  by_cases hc : c = h
  · subst hc
    unfold route
    simp only [hd, Bool.false_eq_true, if_false]
    split <;> rfl
  · exact route_ctx_other h c dbr nrows ncols w hc

theorem route_dbc_free_count_other (h c : Nat) (dbr : DB_RESULT) (nrows ncols : Nat)
    (w : World) (hc : h ≠ c) :
    (route h dbr nrows ncols w).trace.count (HeapEvent.dbc_free c) =
      w.trace.count (HeapEvent.dbc_free c) := by
  unfold route
  by_cases hr : (w.ctx h).running = true
  · simp [hr]
  · by_cases hp : (w.ctx h).npending = 0
    · cases hrs : dbr.rs <;> cases hq : dbr.query <;> simp [hr, hp, List.count_cons, hc]
    · simp [hr, hp, List.count_cons, hc]

/-- Handling one query, seen from a dead context `c`: the content of the context is
unchanged and `dbc_free` is called on it once if the query belongs to `c` and its
Result was allocated, not at all otherwise. -/
theorem process_query_dead (env : WorkEnv) (dbq : DB_QUERY) (w : World) (c : Nat)
    (hd : (w.ctx c).running = false) :
    (process_query env dbq w).ctx c = w.ctx c ∧
    (process_query env dbq w).trace.count (HeapEvent.dbc_free c) =
      w.trace.count (HeapEvent.dbc_free c) +
        (if dbq.dbc = c ∧ env.dbr_ok = true then 1 else 0) := by
  unfold process_query
  by_cases hok : env.dbr_ok = true
  · have hd2 : ((w.log [HeapEvent.malloc_result]).ctx c).running = false := hd
    simp only [hok, if_true, log_ctx, log_trace, and_true]
    refine ⟨route_ctx_dead _ _ _ _ _ _ hd2, ?_⟩
    by_cases hc : dbq.dbc = c
    · subst hc
      rw [List.count_append, route_dbc_free_count]
      simp [hd, List.count_cons]
    · rw [List.count_append, route_dbc_free_count_other _ _ _ _ _ _ hc]
      simp [hc, List.count_cons]
  · cases hq : dbq.query <;> simp [hok, List.count_cons]

/-- The drain phase, seen from a dead context `c`: `dbc_free` is called on `c` once
for every query of `c` whose Result was allocated, whatever its pending counter. -/
theorem drain_loop_dead_free_count (env : Nat → WorkEnv) (c : Nat) (q : List DB_QUERY) :
    ∀ (k : Nat) (w : World), (w.ctx c).running = false →
      (drain_loop env k q w).trace.count (HeapEvent.dbc_free c) =
        w.trace.count (HeapEvent.dbc_free c) +
          ((handled env k q).filter (fun p => decide (p.1.dbc = c) && p.2.dbr_ok)).length := by
  induction q with
  | nil =>
    intro k w _
    simp [drain_loop, handled]
  | cons dbq rest ih =>
    intro k w hd
    obtain ⟨hctx, hcnt⟩ :=
      process_query_dead (env k) dbq { w with query_list_head := rest } c hd
    have hd2 : ((process_query (env k) dbq { w with query_list_head := rest }).ctx c).running
        = false := by
      rw [hctx]
      exact hd
    have htr : List.count (HeapEvent.dbc_free c)
        ({ w with query_list_head := rest } : World).trace
          = List.count (HeapEvent.dbc_free c) w.trace := rfl
    simp only [drain_loop]
    rw [ih (k + 1) _ hd2, hcnt, htr, handled_cons, List.filter_cons]
    by_cases hc : dbq.dbc = c ∧ (env k).dbr_ok = true
    · have hb : ((fun p : DB_QUERY × WorkEnv => decide (p.1.dbc = c) && p.2.dbr_ok)
          (dbq, env k)) = true := by simp [hc.1, hc.2]
      rw [if_pos hc, if_pos hb, List.length_cons]
      omega
    · have hb : ¬ ((fun p : DB_QUERY × WorkEnv => decide (p.1.dbc = c) && p.2.dbr_ok)
          (dbq, env k)) = true := by
        intro hx
        simp only [Bool.and_eq_true, decide_eq_true_eq] at hx
        exact hc hx
      rw [if_neg hc, if_neg hb]
      omega

theorem handled_requests_length (env : Nat → WorkEnv) (hok : ∀ k, (env k).dbr_ok = true)
    (c : Nat) (reqs : List Request) :
    ∀ k, ((handled env k (reqs.map (Request.dbq c))).filter
        (fun p => decide (p.1.dbc = c) && p.2.dbr_ok)).length = reqs.length := by
  induction reqs with
  | nil => intro k; simp [handled]
  | cons r rest ih =>
    intro k
    have hc : (r.dbq c).dbc = c := rfl
    rw [List.map_cons, handled_cons, List.filter_cons]
    simp only [hc, decide_True, Bool.true_and, hok k, if_true, List.length_cons]
    rw [ih (k + 1)]

/-- The run "submit `n` queries under one context, end the scope with
`db_instance_shutdown`, let the worker resolve the `n` queries" (every allocation
succeeding, the queue empty before): `dbc_free` is called on the context `n` times,
once at each resolution. -/
theorem shutdown_run_frees_once_per_query (c : Nat) (w : World) (reqs : List Request)
    (env : Nat → WorkEnv)
    (hq : w.query_list_head = [])
    (hacc : ∀ rv ∈ (submit_all c reqs w).1, rv = 0)
    (hok : ∀ k, (env k).dbr_ok = true) :
    (drain env (db_instance_shutdown c (submit_all c reqs w).2)).trace.count
        (HeapEvent.dbc_free c) =
      (submit_all c reqs w).2.trace.count (HeapEvent.dbc_free c) + reqs.length := by
  obtain ⟨hq1, _, _⟩ := submit_all_accepted c reqs w hacc
  have hd : ((db_instance_shutdown c (submit_all c reqs w).2).ctx c).running = false := by
    simp [db_instance_shutdown]
  have h := drain_loop_dead_free_count env c
    (db_instance_shutdown c (submit_all c reqs w).2).query_list_head 0 _ hd
  unfold drain
  rw [h]
  simp only [db_instance_shutdown, set_ctx_queue, set_ctx_trace, hq1, hq, List.nil_append]
  rw [handled_requests_length env hok c reqs 0]

/-- The pending counter after the loop of `db_instance_export_events`: it is
decremented once for every Result popped, and once more when the loop ends on an
empty inbox, which is the case whenever the time budget is never exceeded. -/
theorem export_loop_npending (env : ExportEnv) (max_time : Nat) (inbox : List DB_RESULT) :
    ∀ (k : Nat) (st : ExportState),
      ∃ e, e ≤ 1 ∧
        (export_loop env max_time k inbox st).dbc.npending =
          size_dec^[((export_loop env max_time k inbox st).popped.length
            - st.popped.length) + e] st.dbc.npending ∧
        ((∀ j, env.elapsed j ≤ max_time) → e = 1) := by
  induction inbox with
  | nil =>
    intro k st
    have h : export_loop env max_time k [] st =
        { st with dbc := { st.dbc with npending := size_dec st.dbc.npending } } := rfl
    refine ⟨1, Nat.le_refl _, ?_, fun _ => rfl⟩
    rw [h]
    simp
  | cons dbr rest ih =>
    intro k st
    have hpop : (export_pop env dbr rest st).popped = st.popped ++ [dbr] := rfl
    have hnp : (export_pop env dbr rest st).dbc.npending = size_dec st.dbc.npending := rfl
    by_cases ht : env.elapsed k ≤ max_time
    · obtain ⟨e, he, hn, hall⟩ := ih (k + 1) (export_pop env dbr rest st)
      obtain ⟨m, _, hp, _, _⟩ := export_loop_order env max_time rest (k + 1)
        (export_pop env dbr rest st)
      have hloop : export_loop env max_time k (dbr :: rest) st =
          export_loop env max_time (k + 1) rest (export_pop env dbr rest st) := by
        simp only [export_loop, ht, if_true]
      refine ⟨e, he, ?_, hall⟩
      rw [hloop, hn, hnp, hp, hpop]
      simp only [List.length_append, List.length_singleton]
      have h1 : st.popped.length + 1 + (List.take m rest).length - (st.popped.length + 1) + e + 1
          = st.popped.length + 1 + (List.take m rest).length - st.popped.length + e := by omega
      rw [← h1, Function.iterate_succ_apply]
    · have hloop : export_loop env max_time k (dbr :: rest) st = export_pop env dbr rest st := by
        simp only [export_loop, ht, if_false]
      refine ⟨0, Nat.zero_le _, ?_, fun h => absurd (h k) ht⟩
      rw [hloop, hnp, hpop]
      simp

end OpenCore
